import Mathlib

/-! Shallow embedding of the ephemeral-resource lifecycle core of the
clone-restore repository: the Kubernetes warm-pool controller and
provisioner (src/kubernetes/wp-k8s-service/app), the job ledger
(job_store.py), and the EC2 fleet provisioner
(src/custom-wp-migrator-poc/wp-setup-service/app/ec2_provisioner.py).
Kubernetes and AWS API calls are modelled as explicit state transitions on a
cluster / fleet state; nondeterministic inputs (generated pod names and
passwords, SSH introspection results, success or failure of remote commands)
are passed in as parameters. -/

deriving instance DecidableEq for Except

/-! ## Cluster-side data model (wp-k8s-service) -/

/-- The label keys the warm-pool controller and provisioner read and write on
pods (`app`, `pool-type`, `pool-status`, `clone-id`, `ttl-expires-at`).
A `none` field means the label is absent. -/
structure PodLabels where
  app : Option String
  poolType : Option String
  poolStatus : Option String
  cloneId : Option String
  ttlExpiresAt : Option String
  deriving DecidableEq, Repr

/-- A pod as the controller observes it: its name, labels, `status.phase`,
whether a `Ready` condition with status `True` is present, and — as the
observable content the reset steps act on — whether the WordPress database
and the uploaded-content filesystem still hold a previous tenant's data. -/
structure Pod where
  name : String
  labels : PodLabels
  phase : String
  readyCondition : Bool
  dbHasTenantData : Bool
  hasTenantFiles : Bool
  deriving DecidableEq, Repr

/-- A credentials secret `{pod}-credentials` with the two generated
passwords stored at creation (warm_pool_controller._create_warm_pod,
k8s_provisioner._create_secret). -/
structure Secret where
  name : String
  dbPassword : String
  wordpressPassword : String
  deriving DecidableEq, Repr

/-- The namespaced resources the embedded code creates and deletes. -/
structure Cluster where
  pods : List Pod
  secrets : List Secret
  deployments : List String
  services : List String
  ingresses : List String
  deriving DecidableEq, Repr

def findPod (c : Cluster) (n : String) : Option Pod :=
  c.pods.find? (fun p => p.name == n)

def findSecret (c : Cluster) (n : String) : Option Secret :=
  c.secrets.find? (fun s => s.name == n)

/-- `patch_namespaced_pod` with a labels body: unconditionally rewrites the
named pod (the patch carries no precondition, so it succeeds regardless of
the pod's current labels). -/
def updatePod (c : Cluster) (n : String) (f : Pod → Pod) : Cluster :=
  { c with pods := c.pods.map (fun p => if p.name == n then f p else p) }

/-! ## Kubernetes delete API, modelled

Deletion of an existing object succeeds and removes it; deletion of an
absent object raises `ApiException` with status 404. -/

def apiDelete {α : Type} (key : α → String) (l : List α) (n : String) :
    Except Nat (List α) :=
  if l.any (fun x => key x == n) then
    Except.ok (l.filter (fun x => !(key x == n)))
  else
    Except.error 404

def delete_namespaced_pod (c : Cluster) (n : String) : Except Nat Cluster :=
  (apiDelete Pod.name c.pods n).map (fun ps => { c with pods := ps })

def delete_namespaced_secret (c : Cluster) (n : String) : Except Nat Cluster :=
  (apiDelete Secret.name c.secrets n).map (fun ss => { c with secrets := ss })

def delete_namespaced_deployment (c : Cluster) (n : String) : Except Nat Cluster :=
  (apiDelete id c.deployments n).map (fun ds => { c with deployments := ds })

/-- Second half of warm_pool_controller._delete_pod: delete the pod's
credentials secret, swallowing a 404 and re-raising anything else. -/
def deleteSecretStep (c : Cluster) (podName : String) : Except Nat Cluster :=
  match delete_namespaced_secret c (podName ++ "-credentials") with
  | Except.ok c1 => Except.ok c1
  | Except.error st => if st == 404 then Except.ok c else Except.error st

/-- warm_pool_controller._delete_pod: delete the pod (404 tolerated), then
its credentials secret (404 tolerated); any other ApiException re-raises. -/
def delete_pod (c : Cluster) (podName : String) : Except Nat Cluster :=
  match delete_namespaced_pod c podName with
  | Except.ok c1 => deleteSecretStep c1 podName
  | Except.error st => if st == 404 then deleteSecretStep c podName else Except.error st

/-- `_delete_pod` as invoked from contexts that catch every exception
(the maintenance loop and the return_to_pool error handler). -/
def runDelete (c : Cluster) (n : String) : Cluster :=
  match delete_pod c n with
  | Except.ok c1 => c1
  | Except.error _ => c

/-- k8s_provisioner._cleanup_secret: delete `{customer_id}-credentials`,
`except ApiException: pass`. -/
def cleanup_secret (c : Cluster) (customerId : String) : Cluster :=
  match delete_namespaced_secret c (customerId ++ "-credentials") with
  | Except.ok c1 => c1
  | Except.error _ => c

/-- k8s_provisioner._cleanup_deployment: delete the deployment,
`except ApiException: pass`. -/
def cleanup_deployment (c : Cluster) (customerId : String) : Cluster :=
  match delete_namespaced_deployment c customerId with
  | Except.ok c1 => c1
  | Except.error _ => c

/-! ## Warm Pool Controller (warm_pool_controller.py) -/

def min_warm_pods : Nat := 1
def max_warm_pods : Nat := 2

/-- The pool's label selector `pool-type=warm,pool-status=ready`. -/
def matchesWarmSelector (p : Pod) : Bool :=
  p.labels.poolType == some "warm" && p.labels.poolStatus == some "ready"

/-- `_get_warm_pods`: list pods under the warm selector, in list order. -/
def get_warm_pods (c : Cluster) : List Pod :=
  c.pods.filter matchesWarmSelector

/-- `_is_pod_available`: phase is Running and a Ready condition is True. -/
def is_pod_available (p : Pod) : Bool :=
  p.phase == "Running" && p.readyCondition

/-- The `available` count computed by the maintenance loop:
ready-labelled pods that are Running and Ready. -/
def readyAvailableCount (c : Cluster) : Nat :=
  ((get_warm_pods c).filter is_pod_available).length

/-- `_create_warm_pod`: create `{pod}-credentials` (a 409 for an existing
secret is tolerated, keeping the old one), then create the pod labelled
`app=wordpress-clone, pool-type=warm, pool-status=initializing`; the new pod
starts in phase Pending with no Ready condition and fresh (empty) state.
The generated uuid-suffixed name and the two generated passwords are inputs. -/
def create_warm_pod (c : Cluster) (podName dbPw wpPw : String) : Cluster :=
  let secretName := podName ++ "-credentials"
  let secrets :=
    if (findSecret c secretName).isSome then c.secrets
    else c.secrets ++ [{ name := secretName, dbPassword := dbPw, wordpressPassword := wpPw }]
  let pod : Pod :=
    { name := podName
      labels :=
        { app := some "wordpress-clone"
          poolType := some "warm"
          poolStatus := some "initializing"
          cloneId := none
          ttlExpiresAt := none }
      phase := "Pending"
      readyCondition := false
      dbHasTenantData := false
      hasTenantFiles := false }
  { c with secrets := secrets, pods := c.pods ++ [pod] }

/-- One pass of the `maintain_pool` loop body: count available warm pods;
below the minimum, cold-create one warm pod; above the maximum, delete the
first listed warm pod (exceptions from the delete are caught by the loop's
`except` clause). -/
def maintain_pool_pass (c : Cluster) (newPodName newDbPw newWpPw : String) : Cluster :=
  let warm := get_warm_pods c
  let available := (warm.filter is_pod_available).length
  if available < min_warm_pods then
    create_warm_pod c newPodName newDbPw newWpPw
  else if available > max_warm_pods then
    match warm.head? with
    | some p => runDelete c p.name
    | none => c
  else c

/-- Environment action, not repository code: the kubelet marks the pod
Running with a True Ready condition once its readiness probe (the pod's
health check) passes. Labels are untouched — no repository code path
rewrites `pool-status` when this happens. -/
def pod_becomes_healthy (c : Cluster) (podName : String) : Cluster :=
  updatePod c podName (fun p => { p with phase := "Running", readyCondition := true })

/-- First half of `assign_warm_pod`: list the warm pods, filter the
available ones, and take the first one's name (None when the pool is
empty). This is a plain read. -/
def list_available_step (c : Cluster) : Option String :=
  (((get_warm_pods c).filter is_pod_available).head?).map (fun p => p.name)

/-- `_reset_pod_database`: drop and recreate the `wordpress` database for
the new customer (per-command failures are logged and swallowed; the
successful effect is a wiped database). -/
def reset_pod_database (c : Cluster) (podName customerId : String) : Cluster :=
  let _ := customerId
  updatePod c podName (fun p => { p with dbHasTenantData := false })

/-- `_tag_pod`: patch the pod's labels with
`clone-id={customer_id}, pool-type=assigned, pool-status=assigned`. -/
def tag_pod (c : Cluster) (podName customerId : String) : Cluster :=
  updatePod c podName (fun p =>
    { p with labels :=
        { p.labels with
            cloneId := some customerId
            poolType := some "assigned"
            poolStatus := some "assigned" } })

/-- Second half of `assign_warm_pod` after the pod name was read: reset the
database and patch the claiming labels. The patch is unconditional: it
succeeds even if another caller claimed the pod in between. -/
def claim_steps (c : Cluster) (podName customerId : String) : Cluster :=
  tag_pod (reset_pod_database c podName customerId) podName customerId

/-- `assign_warm_pod`: read-then-write sequential composition of the two
halves; returns the claimed pod's name, or none when no pod is available. -/
def assign_warm_pod (c : Cluster) (customerId : String) : Option String × Cluster :=
  match list_available_step c with
  | none => (none, c)
  | some podName => (some podName, claim_steps c podName customerId)

/-- Success / failure of each remote step of `return_to_pool`
(the remote exec and patch calls can each fail). -/
structure ResetEnv where
  dbResetOk : Bool
  fsCleanOk : Bool
  untagOk : Bool
  markOk : Bool
  deriving DecidableEq, Repr

/-- `_reset_database`: drop and recreate the WordPress database. Its exec
calls are NOT individually wrapped, so a failure raises out of the
function. -/
def reset_database_strict (c : Cluster) (podName : String) (ok : Bool) :
    Except String Cluster :=
  if ok then
    Except.ok (updatePod c podName (fun p => { p with dbHasTenantData := false }))
  else
    Except.error "exec failed"

/-- `_clean_filesystem`: remove uploads, cache and debug.log. Each command
is wrapped in `try/except` with only a warning logged, so a failure leaves
the state unchanged and does NOT raise. -/
def clean_filesystem (c : Cluster) (podName : String) (ok : Bool) : Cluster :=
  if ok then updatePod c podName (fun p => { p with hasTenantFiles := false })
  else c

/-- `_untag_pod`: patch `clone-id` away; a failed patch raises. -/
def untag_pod (c : Cluster) (podName : String) : Cluster :=
  updatePod c podName (fun p => { p with labels := { p.labels with cloneId := none } })

/-- `_mark_pod_warm`: patch `pool-type=warm, pool-status=ready`. -/
def mark_pod_warm (c : Cluster) (podName : String) : Cluster :=
  updatePod c podName (fun p =>
    { p with labels := { p.labels with poolType := some "warm", poolStatus := some "ready" } })

/-- `return_to_pool`: reset database, clean filesystem, untag, mark ready —
all inside one `try`; any exception escaping a step leads to `_delete_pod`.
`_reset_database`, `_untag_pod` and `_mark_pod_warm` raise on failure;
`_clean_filesystem` swallows its failures. -/
def return_to_pool (c : Cluster) (podName : String) (env : ResetEnv) : Cluster :=
  match reset_database_strict c podName env.dbResetOk with
  | Except.error _ => runDelete c podName
  | Except.ok c1 =>
    let c2 := clean_filesystem c1 podName env.fsCleanOk
    if !env.untagOk then runDelete c2 podName
    else
      let c3 := untag_pod c2 podName
      if !env.markOk then runDelete c3 podName
      else mark_pod_warm c3 podName

/-! ## Warm-path and cold-path provisioning (k8s_provisioner.py) -/

/-- The result dictionary fields of `_provision_from_warm_pool` the claims
are about: the assigned pod and the WordPress admin password handed to the
caller. -/
structure WarmProvisionResult where
  pod_name : String
  wordpress_password : String
  deriving DecidableEq, Repr

/-- `_tag_pod_for_customer` (k8s_provisioner): patch
`clone-id`, `ttl-expires-at` (a Unix-timestamp label computed from now and
ttl_minutes, passed in here) and `pool-type=assigned` onto the pod. -/
def tag_pod_for_customer (c : Cluster) (podName customerId ttlLabel : String) : Cluster :=
  updatePod c podName (fun p =>
    { p with labels :=
        { p.labels with
            cloneId := some customerId
            ttlExpiresAt := some ttlLabel
            poolType := some "assigned" } })

/-- `_provision_from_warm_pool`: assign a warm pod, read the WordPress
password back from the pod's creation-time `{pod}-credentials` secret, tag
the pod for the customer, create a Service and an Ingress, and return the
password read from the secret. A missing pod (or a raised exception) makes
the caller fall back to cold provisioning, modelled as `none` here. -/
def provision_from_warm_pool (c : Cluster) (customerId ttlLabel : String) :
    Option WarmProvisionResult × Cluster :=
  match assign_warm_pod c customerId with
  | (none, c1) => (none, c1)
  | (some podName, c1) =>
    match findSecret c1 (podName ++ "-credentials") with
    | none => (none, c1)
    | some sec =>
      let c2 := tag_pod_for_customer c1 podName customerId ttlLabel
      let c3 := { c2 with
                    services := c2.services ++ [customerId]
                    ingresses := c2.ingresses ++ [customerId] }
      (some { pod_name := podName, wordpress_password := sec.wordpressPassword }, c3)

/-- Success / failure of the cold path's two creation calls
(`_create_secret`, `_create_deployment_with_mysql_sidecar`). -/
structure K8sEnv where
  secretCreateOk : Bool
  deploymentCreateOk : Bool
  deriving DecidableEq, Repr

inductive K8sOutcome where
  | secretCreateFailed
  | deploymentCreateFailed
  | provisioned (wpPassword : String)
  deriving DecidableEq, Repr

/-- `_provision_cold`: generate credentials, create the Secret (a 409 for
an existing secret counts as success and keeps the old one), create the
Deployment; if the Deployment fails, `_cleanup_secret` is called before the
failure is returned. The generated passwords are inputs. -/
def provision_cold (c : Cluster) (customerId wpPw dbPw : String) (env : K8sEnv) :
    K8sOutcome × Cluster :=
  if !env.secretCreateOk then
    (K8sOutcome.secretCreateFailed, c)
  else
    let secretName := customerId ++ "-credentials"
    let c1 :=
      if (findSecret c secretName).isSome then c
      else { c with secrets := c.secrets ++
              [{ name := secretName, dbPassword := dbPw, wordpressPassword := wpPw }] }
    if !env.deploymentCreateOk then
      (K8sOutcome.deploymentCreateFailed, cleanup_secret c1 customerId)
    else
      (K8sOutcome.provisioned wpPw, { c1 with deployments := c1.deployments ++ [customerId] })

/-! ## Job Ledger (job_store.py) -/

inductive JobStatus where
  | pending
  | running
  | completed
  | failed
  | cancelled
  deriving DecidableEq, Repr

/-- `status in (completed, failed, cancelled)` — the terminal statuses for
which `update_job_status` stamps `completed_at`. -/
def isTerminal : JobStatus → Bool
  | JobStatus.completed => true
  | JobStatus.failed => true
  | JobStatus.cancelled => true
  | _ => false

/-- One row of the `jobs` table. Timestamps are Unix seconds as `Nat`;
`request_payload` and `result` JSON values are abstracted to strings. -/
structure Job where
  job_id : String
  jobType : String
  status : JobStatus
  progress : Nat
  request_payload : String
  result : Option String
  error : Option String
  created_at : Nat
  updated_at : Nat
  completed_at : Option Nat
  ttl_expires_at : Option Nat
  deriving DecidableEq, Repr

/-- The field mutations `update_job_status` performs on the selected row:
status is overwritten unconditionally; progress / result / error are
overwritten when the corresponding argument is not None; `completed_at` is
stamped when the new status is terminal; `updated_at` is refreshed by the
column's onupdate hook. -/
def update_job_one (j : Job) (st : JobStatus) (pr : Option Nat)
    (res err : Option String) (now : Nat) : Job :=
  let j1 := { j with status := st, updated_at := now }
  let j2 := match pr with
            | some p => { j1 with progress := p }
            | none => j1
  let j3 := match res with
            | some r => { j2 with result := some r }
            | none => j2
  let j4 := match err with
            | some e => { j3 with error := some e }
            | none => j3
  if isTerminal st then { j4 with completed_at := some now } else j4

/-- `JobStore.update_job_status` over the table contents: select the row by
id (raising ValueError when absent) and apply the mutations. -/
def update_job_status (store : List Job) (jobId : String) (st : JobStatus)
    (pr : Option Nat) (res err : Option String) (now : Nat) :
    Except String (List Job) :=
  if store.any (fun j => j.job_id == jobId) then
    Except.ok (store.map (fun j =>
      if j.job_id == jobId then update_job_one j st pr res err now else j))
  else
    Except.error ("Job " ++ jobId ++ " not found")

/-- The SQL predicate `ttl_expires_at < utcnow()`: a NULL `ttl_expires_at`
compares as unknown, so such rows are not selected for deletion. -/
def jobExpired (now : Nat) (j : Job) : Bool :=
  match j.ttl_expires_at with
  | some t => t < now
  | none => false

/-- `JobStore.cleanup_expired_jobs`: one bulk DELETE of the rows whose
`ttl_expires_at` is strictly before now, returning the remaining table and
the statement's rowcount. -/
def cleanup_expired_jobs (store : List Job) (now : Nat) : List Job × Nat :=
  let remaining := store.filter (fun j => !(jobExpired now j))
  (remaining, store.length - remaining.length)

/-! ## EC2 fleet provisioner (ec2_provisioner.py) -/

def port_range_start : Nat := 8001
def port_range_end : Nat := 8050

/-- The ascending scan `range(port_range_start, port_range_end + 1)`. -/
def portRange : List Nat :=
  List.range' port_range_start (port_range_end + 1 - port_range_start)

/-- `_allocate_port`: with the set of host ports currently bound by running
containers (read over SSH), return the first port of the range not in use,
or None when the whole range is in use; if the introspection itself raises
(modelled as `none`), fall back to the range's first port. -/
def allocate_port (introspected : Option (List Nat)) : Option Nat :=
  match introspected with
  | none => some port_range_start
  | some used_ports => portRange.find? (fun p => !(used_ports.contains p))

/-- An InService, running ASG instance together with its container count as
`_get_instance_load` reports it (999 for an unreachable host). -/
structure Ec2Instance where
  instanceId : String
  privateIp : String
  load : Nat
  deriving DecidableEq, Repr

structure AsgState where
  desiredCapacity : Nat
  maxSize : Nat
  deriving DecidableEq, Repr

/-- The fleet-side state: the ASG, its running instances, and the host
resources the provisioner creates; `scaleOutRequests` counts the
`update_auto_scaling_group` calls issued. -/
structure FleetState where
  asg : AsgState
  instances : List Ec2Instance
  databases : List String
  containers : List String
  nginxConfigs : List String
  scaleOutRequests : Nat
  deriving DecidableEq, Repr

/-- `max_containers = port_range_end - port_range_start + 1` (= 50). -/
def max_containers : Nat := port_range_end - port_range_start + 1

/-- Python's stable sort by load followed by taking element 0: the first
instance attaining the minimal load. -/
def leastLoaded : List Ec2Instance → Option Ec2Instance
  | [] => none
  | i :: rest => some (rest.foldl (fun b x => if x.load < b.load then x else b) i)

/-- `_find_least_loaded_instance`: with no running instances, trigger a
scale-from-zero when desired capacity is 0 and return None; otherwise pick
the least-loaded instance and, when its load reaches 80% of the container
capacity (`load >= max_containers * 0.8`; with integer loads and
max_containers = 50 this is exactly `5 * load >= 4 * max_containers`) while
desired capacity is below MaxSize, issue a desired+1 scale-out request —
without waiting on it — and return the instance. -/
def find_least_loaded_instance (s : FleetState) : Option Ec2Instance × FleetState :=
  match s.instances with
  | [] =>
    if s.asg.desiredCapacity == 0 then
      (none, { s with
                 asg := { s.asg with desiredCapacity := 1 }
                 scaleOutRequests := s.scaleOutRequests + 1 })
    else (none, s)
  | i :: rest =>
    let best := rest.foldl (fun b x => if x.load < b.load then x else b) i
    if 5 * best.load ≥ 4 * max_containers then
      if s.asg.desiredCapacity < s.asg.maxSize then
        (some best, { s with
                        asg := { s.asg with desiredCapacity := s.asg.desiredCapacity + 1 }
                        scaleOutRequests := s.scaleOutRequests + 1 })
      else (some best, s)
    else (some best, s)

/-- `customer_id.replace('-', '_')` prefixed with `wp_`. -/
def sanitizeDbName (customerId : String) : String :=
  "wp_" ++ String.mk (customerId.data.map (fun ch => if ch = '-' then '_' else ch))

/-- Remote-step inputs of one EC2 `provision_target` run: the SSH port
introspection result (`none` when the SSH call raises) and success of the
database-create, container-start and nginx-config steps. -/
structure Ec2Env where
  introspectedPorts : Option (List Nat)
  dbCreateOk : Bool
  containerStartOk : Bool
  nginxOk : Bool
  deriving DecidableEq, Repr

inductive Ec2Outcome where
  | noCapacity
  | portExhausted
  | dbCreateFailed
  | containerStartFailed
  | nginxConfigFailed
  | provisioned (port : Nat)
  deriving DecidableEq, Repr

/-- `EC2Provisioner.provision_target` up to the result-shaping steps:
pick the least-loaded instance (NO_CAPACITY when none), allocate a port
(PORT_EXHAUSTED when the range is full), create the MySQL database, start
the container, configure the nginx route; on nginx failure the container is
stopped and removed (`_stop_container`) before NGINX_CONFIG_FAILED is
returned. The later ALB-rule and health steps only log on failure and do
not change the outcome, so they are not tracked. -/
def provision_target (s : FleetState) (customerId : String) (env : Ec2Env) :
    Ec2Outcome × FleetState :=
  match find_least_loaded_instance s with
  | (none, s1) => (Ec2Outcome.noCapacity, s1)
  | (some _inst, s1) =>
    match allocate_port env.introspectedPorts with
    | none => (Ec2Outcome.portExhausted, s1)
    | some port =>
      if !env.dbCreateOk then (Ec2Outcome.dbCreateFailed, s1)
      else
        let s2 := { s1 with databases := s1.databases ++ [sanitizeDbName customerId] }
        if !env.containerStartOk then (Ec2Outcome.containerStartFailed, s2)
        else
          let s3 := { s2 with containers := s2.containers ++ [customerId] }
          if !env.nginxOk then
            let s4 := { s3 with containers := s3.containers.filter (fun x => !(x == customerId)) }
            (Ec2Outcome.nginxConfigFailed, s4)
          else
            (Ec2Outcome.provisioned port, { s3 with nginxConfigs := s3.nginxConfigs ++ [customerId] })

/-! ## Concrete states used by the claim theorems -/

/-- A warm pod that is ready and available for assignment, as
`return_to_pool` would leave it (or as constructed for a test pool). -/
def readyWarmPod (n : String) : Pod :=
  { name := n
    labels :=
      { app := some "wordpress-clone"
        poolType := some "warm"
        poolStatus := some "ready"
        cloneId := none
        ttlExpiresAt := none }
    phase := "Running"
    readyCondition := true
    dbHasTenantData := false
    hasTenantFiles := false }

def emptyCluster : Cluster :=
  { pods := [], secrets := [], deployments := [], services := [], ingresses := [] }

/-- A pool of exactly one ready warm entry together with its credentials
secret. -/
def onePodPool : Cluster :=
  { pods := [readyWarmPod "wordpress-warm-p1"]
    secrets := [{ name := "wordpress-warm-p1-credentials"
                  dbPassword := "db-original"
                  wordpressPassword := "pw-original" }]
    deployments := []
    services := []
    ingresses := [] }

/-- A completed job row, used to exercise `update_job_status` on a
terminal-state job. -/
def completedJob : Job :=
  { job_id := "job-1"
    jobType := "clone"
    status := JobStatus.completed
    progress := 100
    request_payload := "{}"
    result := some "ok"
    error := none
    created_at := 1700000000
    updated_at := 1700000300
    completed_at := some 1700000300
    ttl_expires_at := some 1700003600 }

/-- A job record past its TTL at time 100. -/
def expiredJob : Job :=
  { job_id := "job-expired"
    jobType := "clone"
    status := JobStatus.running
    progress := 40
    request_payload := "{}"
    result := none
    error := none
    created_at := 10
    updated_at := 20
    completed_at := none
    ttl_expires_at := some 50 }

/-- A job record whose `ttl_expires_at` is NULL. -/
def nullTtlJob : Job :=
  { job_id := "job-null-ttl"
    jobType := "restore"
    status := JobStatus.pending
    progress := 0
    request_payload := "{}"
    result := none
    error := none
    created_at := 10
    updated_at := 10
    completed_at := none
    ttl_expires_at := none }

/-- A pod still assigned to a previous tenant, with tenant data on disk,
about to be returned to the pool. -/
def dirtyAssignedPod : Pod :=
  { name := "wordpress-warm-p1"
    labels :=
      { app := some "wordpress-clone"
        poolType := some "assigned"
        poolStatus := some "assigned"
        cloneId := some "cust-old"
        ttlExpiresAt := some "1700000100" }
    phase := "Running"
    readyCondition := true
    dbHasTenantData := true
    hasTenantFiles := true }

def dirtyPool : Cluster :=
  { pods := [dirtyAssignedPod]
    secrets := [{ name := "wordpress-warm-p1-credentials"
                  dbPassword := "db-original"
                  wordpressPassword := "pw-original" }]
    deployments := []
    services := []
    ingresses := [] }

/-- A fleet of one lightly loaded instance, used by the provisioning
counterexamples. -/
def oneInstanceFleet : FleetState :=
  { asg := { desiredCapacity := 1, maxSize := 3 }
    instances := [{ instanceId := "i-0001", privateIp := "10.0.1.10", load := 0 }]
    databases := []
    containers := []
    nginxConfigs := []
    scaleOutRequests := 0 }

/-- A fleet whose single instance sits exactly at the 80% container
threshold (load 40 of max_containers = 50), with head-room in the ASG. -/
def saturatedFleet : FleetState :=
  { asg := { desiredCapacity := 1, maxSize := 3 }
    instances := [{ instanceId := "i-0001", privateIp := "10.0.1.10", load := 40 }]
    databases := []
    containers := []
    nginxConfigs := []
    scaleOutRequests := 0 }

/-- Specification-side description of the state `_delete_pod` leaves
behind: the named pod and its credentials secret are gone, everything else
is untouched. -/
def stripPodAndSecret (c : Cluster) (n : String) : Cluster :=
  { c with
      pods := c.pods.filter fun p => !(p.name == n)
      secrets := c.secrets.filter fun s => !(s.name == (n ++ "-credentials")) }

/-! ## Claim theorems -/

/-- C1: starting from an empty pool, the maintenance loop creates a pod
labelled `pool-status=initializing`; after its health check passes nothing
flips the label, so the next pass still counts zero ready pods and creates
yet another pod — the ready count never returns to min_warm. -/
theorem warm_pool_never_selfheals :
    readyAvailableCount (maintain_pool_pass emptyCluster "wordpress-warm-00000001" "dbpw1" "wppw1") = 0 ∧
    (findPod
        (pod_becomes_healthy
          (maintain_pool_pass emptyCluster "wordpress-warm-00000001" "dbpw1" "wppw1")
          "wordpress-warm-00000001")
        "wordpress-warm-00000001").map
      (fun p => (p.labels.poolStatus, is_pod_available p)) = some (some "initializing", true) ∧
    readyAvailableCount
      (maintain_pool_pass
        (pod_becomes_healthy
          (maintain_pool_pass emptyCluster "wordpress-warm-00000001" "dbpw1" "wppw1")
          "wordpress-warm-00000001")
        "wordpress-warm-00000002" "dbpw2" "wppw2") = 0 ∧
    (maintain_pool_pass
        (pod_becomes_healthy
          (maintain_pool_pass emptyCluster "wordpress-warm-00000001" "dbpw1" "wppw1")
          "wordpress-warm-00000001")
        "wordpress-warm-00000002" "dbpw2" "wppw2").pods.map
      (fun p => p.labels.poolStatus) = [some "initializing", some "initializing"] := by
  decide

/-- C7: against a pool of exactly one ready entry, the interleaving in
which both callers run the list step before either runs the claim step
makes both `assign` calls return the same pod name as success, because the
claiming patch is unconditional; only the fully sequential run gives the
second caller "no pod available". -/
theorem warm_pool_double_assignment :
    list_available_step onePodPool = some "wordpress-warm-p1" ∧
    list_available_step onePodPool = some "wordpress-warm-p1" ∧
    (findPod
        (claim_steps (claim_steps onePodPool "wordpress-warm-p1" "cust-a")
          "wordpress-warm-p1" "cust-b")
        "wordpress-warm-p1").map (fun p => p.labels.cloneId) = some (some "cust-b") ∧
    (assign_warm_pod ((assign_warm_pod onePodPool "cust-a").2) "cust-b").1 = none := by
  decide

/-- C8: a warm pod assigned to cust-a, returned to the pool (all reset
steps succeed), and then assigned to cust-b hands BOTH customers the same
WordPress admin password — the one stored in the pod's creation-time
credentials secret, which neither assignment nor return rotates. -/
theorem warm_pool_password_reused :
    ((provision_from_warm_pool onePodPool "cust-a" "1700000100").1).map
      (fun r => r.wordpress_password) = some "pw-original" ∧
    ((provision_from_warm_pool
        (return_to_pool ((provision_from_warm_pool onePodPool "cust-a" "1700000100").2)
          "wordpress-warm-p1"
          { dbResetOk := true, fsCleanOk := true, untagOk := true, markOk := true })
        "cust-b" "1700000200").1).map
      (fun r => r.wordpress_password) = some "pw-original" := by
  decide

/-- C2 counterexample: a later `update_job_status` call on a job whose
status is `completed` moves it back to `running` and applies a progress
update while the job is not running — the setter has no transition guard. -/
theorem update_job_status_leaves_terminal :
    completedJob.status = JobStatus.completed ∧
    update_job_status [completedJob] "job-1" JobStatus.running (some 50) none none 1700000400 =
      Except.ok [{ completedJob with
                     status := JobStatus.running
                     progress := 50
                     updated_at := 1700000400 }] := by
  decide

/-- C3 counterexample: when the uploaded-content filesystem cleanup fails
(its exceptions are swallowed inside `_clean_filesystem`), the pod is NOT
destroyed: it is re-labelled `pool-status=ready` with the previous tenant's
files still on disk, and its credentials secret survives. -/
theorem return_to_pool_fs_failure_not_destroyed :
    (findPod
        (return_to_pool dirtyPool "wordpress-warm-p1"
          { dbResetOk := true, fsCleanOk := false, untagOk := true, markOk := true })
        "wordpress-warm-p1").map
      (fun p => (p.labels.poolStatus, p.hasTenantFiles)) = some (some "ready", true) ∧
    (findSecret
        (return_to_pool dirtyPool "wordpress-warm-p1"
          { dbResetOk := true, fsCleanOk := false, untagOk := true, markOk := true })
        "wordpress-warm-p1-credentials").isSome = true := by
  decide

/-- C5 counterexample: when nginx route configuration fails after the
database and container were created, `provision_target` stops the container
but leaves the customer's MySQL database/schema behind while returning the
failure — the compensating cleanup does not cover everything created. -/
theorem route_failure_leaves_database :
    (provision_target oneInstanceFleet "demo-1"
        { introspectedPorts := some [], dbCreateOk := true,
          containerStartOk := true, nginxOk := false }).1 = Ec2Outcome.nginxConfigFailed ∧
    (provision_target oneInstanceFleet "demo-1"
        { introspectedPorts := some [], dbCreateOk := true,
          containerStartOk := true, nginxOk := false }).2.containers = [] ∧
    (provision_target oneInstanceFleet "demo-1"
        { introspectedPorts := some [], dbCreateOk := true,
          containerStartOk := true, nginxOk := false }).2.databases = ["wp_demo_1"] := by
  decide

/-- C6 counterexample: during one uninterrupted threshold crossing (the
load stays at 80% across two consecutive calls), each call issues its own
desired+1 scale-out request — two requests for one crossing, not one. -/
theorem scale_out_issued_per_request :
    (find_least_loaded_instance saturatedFleet).2.scaleOutRequests = 1 ∧
    (find_least_loaded_instance (find_least_loaded_instance saturatedFleet).2).2.scaleOutRequests = 2 ∧
    (find_least_loaded_instance (find_least_loaded_instance saturatedFleet).2).2.asg.desiredCapacity = 3 := by
  decide

/-! ## Helper lemmas -/

/-- Filtering out every element with the given key leaves a list in which
no element has that key. -/
theorem filter_key_any_false {α : Type} (key : α → String) (l : List α) (n : String) :
    ((l.filter fun x => !(key x == n)).any fun x => key x == n) = false := by
  induction l with
  | nil => rfl
  | cons a t ih =>
    by_cases h : key a = n
    · simp [List.filter_cons, h, ih]
    · simp [List.filter_cons, h, ih]

/-- A filter that removes nothing (no element has the key) is the
identity. -/
theorem filter_key_id {α : Type} (key : α → String) (l : List α) (n : String)
    (h : (l.any fun x => key x == n) = false) :
    (l.filter fun x => !(key x == n)) = l := by
  apply List.filter_eq_self.mpr
  intro a ha
  simp only [Bool.not_eq_true']
  rcases (List.any_eq_false).mp h a ha with h'
  exact Bool.not_eq_true _ ▸ by simpa using h'

/-- `_delete_pod` always succeeds and leaves exactly the state with the
named pod and its credentials secret removed. -/
theorem delete_pod_eq_strip (c : Cluster) (n : String) :
    delete_pod c n = Except.ok (stripPodAndSecret c n) := by
  by_cases hp : (c.pods.any fun p => p.name == n) = true
  · by_cases hs : (c.secrets.any fun s => s.name == (n ++ "-credentials")) = true
    · simp [delete_pod, delete_namespaced_pod, deleteSecretStep, delete_namespaced_secret,
        apiDelete, Except.map, hp, hs, stripPodAndSecret]
    · rw [Bool.not_eq_true] at hs
      simp [delete_pod, delete_namespaced_pod, deleteSecretStep, delete_namespaced_secret,
        apiDelete, Except.map, hp, hs, stripPodAndSecret, filter_key_id Secret.name c.secrets _ hs]
  · rw [Bool.not_eq_true] at hp
    by_cases hs : (c.secrets.any fun s => s.name == (n ++ "-credentials")) = true
    · simp [delete_pod, delete_namespaced_pod, deleteSecretStep, delete_namespaced_secret,
        apiDelete, Except.map, hp, hs, stripPodAndSecret, filter_key_id Pod.name c.pods _ hp]
    · rw [Bool.not_eq_true] at hs
      simp [delete_pod, delete_namespaced_pod, deleteSecretStep, delete_namespaced_secret,
        apiDelete, Except.map, hp, hs, stripPodAndSecret, filter_key_id Pod.name c.pods _ hp,
        filter_key_id Secret.name c.secrets _ hs]

/-- The cluster left behind by `_delete_pod` holds no pod or secret with
the deleted names, so a repeated delete is a successful no-op. -/
theorem delete_pod_strip_noop (c : Cluster) (n : String) :
    delete_pod (stripPodAndSecret c n) n = Except.ok (stripPodAndSecret c n) := by
  have h := delete_pod_eq_strip (stripPodAndSecret c n) n
  rw [h]
  congr 1
  unfold stripPodAndSecret
  simp [filter_key_id Pod.name _ n (filter_key_any_false Pod.name c.pods n),
    filter_key_id Secret.name _ (n ++ "-credentials")
      (filter_key_any_false Secret.name c.secrets (n ++ "-credentials"))]

/-- C4: the cited destroy operations are idempotent and never raise on
"already gone": `_delete_pod` succeeds on every state and a second call is
a successful no-op; `_cleanup_deployment` and `_cleanup_secret` are total
and idempotent; and on a state where the resource was never allocated each
operation leaves the state untouched. -/
theorem destroy_is_idempotent :
    ∀ (c : Cluster) (podName customerId : String),
      (delete_pod c podName = Except.ok (stripPodAndSecret c podName) ∧
        delete_pod (stripPodAndSecret c podName) podName =
          Except.ok (stripPodAndSecret c podName)) ∧
      cleanup_deployment (cleanup_deployment c customerId) customerId =
        cleanup_deployment c customerId ∧
      cleanup_secret (cleanup_secret c customerId) customerId =
        cleanup_secret c customerId ∧
      ((c.deployments.any fun d => d == customerId) = false →
        cleanup_deployment c customerId = c) ∧
      ((c.secrets.any fun s => s.name == (customerId ++ "-credentials")) = false →
        cleanup_secret c customerId = c) ∧
      ((c.pods.any fun p => p.name == podName) = false →
       (c.secrets.any fun s => s.name == (podName ++ "-credentials")) = false →
        delete_pod c podName = Except.ok c) := by
  intro c podName customerId
  have hdep_gone : ∀ (c' : Cluster),
      (c'.deployments.any fun d => d == customerId) = false →
      cleanup_deployment c' customerId = c' := by
    intro c' h
    simp [cleanup_deployment, delete_namespaced_deployment, apiDelete, Except.map, h]
  have hsec_gone : ∀ (c' : Cluster),
      (c'.secrets.any fun s => s.name == (customerId ++ "-credentials")) = false →
      cleanup_secret c' customerId = c' := by
    intro c' h
    simp [cleanup_secret, delete_namespaced_secret, apiDelete, Except.map, h]
  refine ⟨⟨delete_pod_eq_strip c podName, delete_pod_strip_noop c podName⟩, ?_, ?_, hdep_gone c, hsec_gone c, ?_⟩
  · by_cases h : (c.deployments.any fun d => d == customerId) = true
    · have h1 : cleanup_deployment c customerId =
          { c with deployments := c.deployments.filter fun d => !(d == customerId) } := by
        simp [cleanup_deployment, delete_namespaced_deployment, apiDelete, Except.map, h]
      rw [h1]
      exact hdep_gone _ (filter_key_any_false id c.deployments customerId)
    · rw [Bool.not_eq_true] at h
      rw [hdep_gone c h, hdep_gone c h]
  · by_cases h : (c.secrets.any fun s => s.name == (customerId ++ "-credentials")) = true
    · have h1 : cleanup_secret c customerId =
          { c with secrets := c.secrets.filter fun s => !(s.name == (customerId ++ "-credentials")) } := by
        simp [cleanup_secret, delete_namespaced_secret, apiDelete, Except.map, h]
      rw [h1]
      exact hsec_gone _ (filter_key_any_false Secret.name c.secrets (customerId ++ "-credentials"))
    · rw [Bool.not_eq_true] at h
      rw [hsec_gone c h, hsec_gone c h]
  · intro hp hs
    rw [delete_pod_eq_strip c podName]
    congr 1
    unfold stripPodAndSecret
    simp [filter_key_id Pod.name c.pods podName hp,
      filter_key_id Secret.name c.secrets (podName ++ "-credentials") hs]

/-- Witness for C4: on the empty cluster (a never-allocated customer id),
both cleanup operations are successful no-ops and the pod delete succeeds. -/
theorem destroy_is_idempotent_witness :
    cleanup_deployment emptyCluster "ghost-customer" = emptyCluster ∧
    cleanup_secret emptyCluster "ghost-customer" = emptyCluster ∧
    delete_pod emptyCluster "ghost-pod" = Except.ok emptyCluster := by
  have h := destroy_is_idempotent emptyCluster "ghost-pod" "ghost-customer"
  exact ⟨h.2.2.2.1 (by decide), h.2.2.2.2.1 (by decide), h.2.2.2.2.2 (by decide) (by decide)⟩

/-- C2 (amended): `update_job_status` is an unguarded setter — the new
status is applied regardless of the current one (including out of terminal
states), progress is applied whenever supplied regardless of status,
result/error are overwritten only when supplied, `completed_at` is stamped
exactly for terminal target statuses, and the call errors only when the job
id is absent. -/
theorem update_job_status_applies_unconditionally :
    (∀ (j : Job) (st : JobStatus) (pr : Option Nat) (res err : Option String) (now : Nat),
      (update_job_one j st pr res err now).status = st ∧
      (update_job_one j st pr res err now).progress = pr.getD j.progress ∧
      (update_job_one j st pr res err now).result = (if res.isSome then res else j.result) ∧
      (update_job_one j st pr res err now).error = (if err.isSome then err else j.error) ∧
      (update_job_one j st pr res err now).completed_at =
        (if isTerminal st then some now else j.completed_at)) ∧
    (∀ (store : List Job) (jobId : String) (st : JobStatus) (pr : Option Nat)
        (res err : Option String) (now : Nat),
      (update_job_status store jobId st pr res err now =
          Except.error ("Job " ++ jobId ++ " not found") ↔
        (store.any fun j => j.job_id == jobId) = false)) := by
  constructor
  · intro j st pr res err now
    cases pr <;> cases res <;> cases err <;>
      simp [update_job_one, Option.getD] <;> split <;> simp
  · intro store jobId st pr res err now
    by_cases h : (store.any fun j => j.job_id == jobId) = true
    · simp [update_job_status, h]
    · rw [Bool.not_eq_true] at h
      simp [update_job_status, h]

/-- `runDelete` deterministically yields the stripped state, since the
modelled delete only errors with the swallowed 404. -/
theorem runDelete_strip (c : Cluster) (n : String) :
    runDelete c n = stripPodAndSecret c n := by
  simp [runDelete, delete_pod_eq_strip]

/-- No pod with the deleted name survives `_delete_pod`. -/
theorem findPod_strip (c : Cluster) (n : String) :
    findPod (stripPodAndSecret c n) n = none := by
  apply List.find?_eq_none.mpr
  intro p hp
  have h := (List.mem_filter.mp hp).2
  simp only [Bool.not_eq_true'] at h
  simp [h]

/-- No credentials secret for the deleted pod survives `_delete_pod`. -/
theorem findSecret_strip (c : Cluster) (n : String) :
    findSecret (stripPodAndSecret c n) (n ++ "-credentials") = none := by
  apply List.find?_eq_none.mpr
  intro s hs
  have h := (List.mem_filter.mp hs).2
  simp only [Bool.not_eq_true'] at h
  simp [h]

/-- A label/content patch commutes with the pod lookup when it preserves
the pod's name. -/
theorem findPod_updatePod (c : Cluster) (n : String) (f : Pod → Pod)
    (hf : ∀ p, (f p).name = p.name) :
    findPod (updatePod c n f) n = (findPod c n).map f := by
  unfold findPod updatePod
  show (c.pods.map fun p => if p.name == n then f p else p).find? (fun p => p.name == n) =
    (c.pods.find? fun p => p.name == n).map f
  induction c.pods with
  | nil => rfl
  | cons a t ih =>
    by_cases h : a.name = n
    · simp [List.find?_cons, h, hf, -List.find?_map]
    · simpa [List.find?_cons, h, -List.find?_map] using ih

/-- After a `runDelete`, neither the pod nor its credentials secret can be
found. -/
theorem runDelete_gone (c : Cluster) (n : String) :
    findPod (runDelete c n) n = none ∧
    findSecret (runDelete c n) (n ++ "-credentials") = none := by
  rw [runDelete_strip]
  exact ⟨findPod_strip c n, findSecret_strip c n⟩

/-- C3 (amended): a failure of the database wipe, of the label stripping,
or of the re-label-ready patch destroys the unit outright (pod and
credentials secret deleted); a failure of the filesystem cleanup alone is
swallowed, so the pod is still re-labelled `pool-status=ready` and made
assignable again, keeping the previous tenant's files. -/
theorem return_to_pool_destroy_on_failure :
    ∀ (c : Cluster) (podName : String) (env : ResetEnv),
      ((env.dbResetOk = false ∨ env.untagOk = false ∨ env.markOk = false) →
        findPod (return_to_pool c podName env) podName = none ∧
        findSecret (return_to_pool c podName env) (podName ++ "-credentials") = none) ∧
      (env.dbResetOk = true → env.untagOk = true → env.markOk = true →
        (findPod (return_to_pool c podName env) podName).map
            (fun p => (p.labels.poolStatus, p.hasTenantFiles)) =
          (findPod c podName).map
            (fun p => ((some "ready" : Option String),
                       if env.fsCleanOk then false else p.hasTenantFiles))) := by
  intro c podName env
  obtain ⟨db, fs, un, mk⟩ := env
  constructor
  · intro h
    cases db <;> cases un <;> cases mk <;> simp at h <;>
      exact runDelete_gone _ podName
  · intro hdb hun hmk
    subst hdb; subst hun; subst hmk
    cases fs
    · show (findPod (mark_pod_warm (untag_pod (updatePod c podName _) podName) podName)
          podName).map _ = _
      unfold mark_pod_warm untag_pod
      rw [findPod_updatePod]
      rw [findPod_updatePod]
      rw [findPod_updatePod]
      · cases findPod c podName <;> simp
      · exact fun p => rfl
      · exact fun p => rfl
      · exact fun p => rfl
    · show (findPod (mark_pod_warm (untag_pod (updatePod (updatePod c podName _) podName _)
          podName) podName) podName).map _ = _
      unfold mark_pod_warm untag_pod
      rw [findPod_updatePod]
      rw [findPod_updatePod]
      rw [findPod_updatePod]
      rw [findPod_updatePod]
      · cases findPod c podName <;> simp
      · exact fun p => rfl
      · exact fun p => rfl
      · exact fun p => rfl
      · exact fun p => rfl

/-- Witness for C3: a failed database wipe on a concrete dirty pool ends
with the pod destroyed. -/
theorem return_to_pool_destroy_on_failure_witness :
    findPod
      (return_to_pool dirtyPool "wordpress-warm-p1"
        { dbResetOk := false, fsCleanOk := true, untagOk := true, markOk := true })
      "wordpress-warm-p1" = none := by
  have h := return_to_pool_destroy_on_failure dirtyPool "wordpress-warm-p1"
    { dbResetOk := false, fsCleanOk := true, untagOk := true, markOk := true }
  exact (h.1 (Or.inl rfl)).1

/-- A secret lookup cannot succeed after `_cleanup_secret` ran for the same
customer id. -/
theorem findSecret_cleanup (c : Cluster) (customerId : String) :
    findSecret (cleanup_secret c customerId) (customerId ++ "-credentials") = none := by
  by_cases h : (c.secrets.any fun s => s.name == (customerId ++ "-credentials")) = true
  · have h1 : cleanup_secret c customerId =
        { c with secrets := c.secrets.filter fun s => !(s.name == (customerId ++ "-credentials")) } := by
      simp [cleanup_secret, delete_namespaced_secret, apiDelete, Except.map, h]
    rw [h1]
    apply List.find?_eq_none.mpr
    intro s hs
    have h2 := (List.mem_filter.mp hs).2
    simp only [Bool.not_eq_true'] at h2
    simp [h2]
  · rw [Bool.not_eq_true] at h
    have h1 : cleanup_secret c customerId = c := by
      simp [cleanup_secret, delete_namespaced_secret, apiDelete, Except.map, h]
    rw [h1]
    apply List.find?_eq_none.mpr
    intro s hs
    rcases List.any_eq_false.mp h s hs with h2
    simpa using h2

/-- C5 (amended): when route creation fails after the compute unit exists,
the compute unit itself is torn down before the failure is returned — the
EC2 path stops and removes the container (but leaves the created MySQL
database behind), and the cluster cold path removes the created secret when
the deployment cannot be created. -/
theorem provision_failure_compensation :
    ∀ (s : FleetState) (customerId : String) (env : Ec2Env) (port : Nat)
      (c : Cluster) (wpPw dbPw : String) (kenv : K8sEnv),
      ((find_least_loaded_instance s).1.isSome = true →
       allocate_port env.introspectedPorts = some port →
       env.dbCreateOk = true → env.containerStartOk = true → env.nginxOk = false →
        (provision_target s customerId env).1 = Ec2Outcome.nginxConfigFailed ∧
        ((provision_target s customerId env).2.containers.any fun x => x == customerId) = false ∧
        sanitizeDbName customerId ∈ (provision_target s customerId env).2.databases) ∧
      (kenv.secretCreateOk = true → kenv.deploymentCreateOk = false →
        (provision_cold c customerId wpPw dbPw kenv).1 = K8sOutcome.deploymentCreateFailed ∧
        findSecret (provision_cold c customerId wpPw dbPw kenv).2
          (customerId ++ "-credentials") = none) := by
  intro s customerId env port c wpPw dbPw kenv
  constructor
  · intro hinst halloc hdb hcont hng
    rcases hfind : find_least_loaded_instance s with ⟨o, s1⟩
    cases o with
    | none => rw [hfind] at hinst; simp at hinst
    | some inst =>
      have hshape : provision_target s customerId env =
          (Ec2Outcome.nginxConfigFailed,
            { s1 with
                databases := s1.databases ++ [sanitizeDbName customerId]
                containers := (s1.containers ++ [customerId]).filter
                  fun x => !(x == customerId) }) := by
        simp [provision_target, hfind, halloc, hdb, hcont, hng]
      rw [hshape]
      refine ⟨rfl, ?_, ?_⟩
      · exact filter_key_any_false (fun x => x) (s1.containers ++ [customerId]) customerId
      · simp
  · intro hsec hdep
    have h1 : provision_cold c customerId wpPw dbPw kenv =
        (K8sOutcome.deploymentCreateFailed, cleanup_secret
          (if (findSecret c (customerId ++ "-credentials")).isSome then c
           else { c with secrets := c.secrets ++
                  [{ name := customerId ++ "-credentials", dbPassword := dbPw,
                     wordpressPassword := wpPw }] }) customerId) := by
      simp [provision_cold, hsec, hdep]
    rw [h1]
    exact ⟨rfl, findSecret_cleanup _ customerId⟩

/-- Witness for C5: concrete nginx-failure run and concrete
deployment-failure cold provision, both with the compute unit / secret
cleaned up. -/
theorem provision_failure_compensation_witness :
    (provision_target oneInstanceFleet "demo-1"
        { introspectedPorts := some [], dbCreateOk := true,
          containerStartOk := true, nginxOk := false }).1 = Ec2Outcome.nginxConfigFailed ∧
    findSecret
      (provision_cold emptyCluster "demo-1" "wp-pw" "db-pw"
          { secretCreateOk := true, deploymentCreateOk := false }).2
      "demo-1-credentials" = none := by
  have h := provision_failure_compensation oneInstanceFleet "demo-1"
    { introspectedPorts := some [], dbCreateOk := true, containerStartOk := true, nginxOk := false }
    8001 emptyCluster "wp-pw" "db-pw" { secretCreateOk := true, deploymentCreateOk := false }
  exact ⟨(h.1 (by decide) (by decide) rfl rfl rfl).1, (h.2 rfl rfl).2⟩

/-- The fold that models Python's stable sort-by-load + take-first returns
an element whose load is a lower bound for the seed and all list
elements. -/
theorem foldl_least_load (l : List Ec2Instance) :
    ∀ i : Ec2Instance,
      (l.foldl (fun b x => if x.load < b.load then x else b) i).load ≤ i.load ∧
      ∀ x ∈ l, (l.foldl (fun b x => if x.load < b.load then x else b) i).load ≤ x.load := by
  induction l with
  | nil => intro i; simp
  | cons a t ih =>
    intro i
    rcases ih (if a.load < i.load then a else i) with ⟨h1, h2⟩
    rw [List.foldl_cons]
    refine ⟨?_, ?_⟩
    · exact le_trans h1 (by split <;> omega)
    · intro x hx
      rcases List.mem_cons.mp hx with rfl | hx
      · exact le_trans h1 (by split <;> omega)
      · exact h2 x hx

/-- C6 (amended): on every call with a nonempty fleet,
`_find_least_loaded_instance` returns the least-loaded instance without
blocking, and issues a desired+1 scale-out request exactly when that
instance's load is at or above 80% of the container capacity and the ASG's
desired capacity is below MaxSize — i.e. once per qualifying request, with
no once-per-crossing latch. -/
theorem scale_out_per_qualifying_request :
    ∀ (s : FleetState) (i : Ec2Instance) (rest : List Ec2Instance),
      s.instances = i :: rest →
      ∃ best, (find_least_loaded_instance s).1 = some best ∧
        leastLoaded s.instances = some best ∧
        (∀ x ∈ s.instances, best.load ≤ x.load) ∧
        (find_least_loaded_instance s).2.scaleOutRequests =
          s.scaleOutRequests +
            (if 5 * best.load ≥ 4 * max_containers ∧ s.asg.desiredCapacity < s.asg.maxSize
             then 1 else 0) ∧
        (find_least_loaded_instance s).2.asg.desiredCapacity =
          s.asg.desiredCapacity +
            (if 5 * best.load ≥ 4 * max_containers ∧ s.asg.desiredCapacity < s.asg.maxSize
             then 1 else 0) ∧
        (find_least_loaded_instance s).2.instances = s.instances := by
  intro s i rest h
  refine ⟨(rest.foldl (fun b x => if x.load < b.load then x else b) i), ?_⟩
  have hmin := foldl_least_load rest i
  have hmem : ∀ x ∈ s.instances,
      (rest.foldl (fun b x => if x.load < b.load then x else b) i).load ≤ x.load := by
    intro x hx
    rw [h] at hx
    rcases List.mem_cons.mp hx with rfl | hx
    · exact hmin.1
    · exact hmin.2 x hx
  by_cases hload : 5 * (rest.foldl (fun b x => if x.load < b.load then x else b) i).load ≥
      4 * max_containers
  · by_cases hcap : s.asg.desiredCapacity < s.asg.maxSize
    · refine ⟨?_, ?_, hmem, ?_, ?_, ?_⟩ <;>
        simp [find_least_loaded_instance, leastLoaded, h, hload, hcap]
    · refine ⟨?_, ?_, hmem, ?_, ?_, ?_⟩ <;>
        simp [find_least_loaded_instance, leastLoaded, h, hload, hcap]
  · refine ⟨?_, ?_, hmem, ?_, ?_, ?_⟩ <;>
      simp [find_least_loaded_instance, leastLoaded, h, hload]

/-- Witness for C6: at the concrete saturated fleet (load 40 of 50, ASG
desired 1 of max 3) the call issues exactly one scale-out request. -/
theorem scale_out_per_qualifying_request_witness :
    (find_least_loaded_instance saturatedFleet).2.scaleOutRequests =
      saturatedFleet.scaleOutRequests + 1 := by
  obtain ⟨best, h1, _h2, _h3, h4, _h5, _h6⟩ :=
    scale_out_per_qualifying_request saturatedFleet
      { instanceId := "i-0001", privateIp := "10.0.1.10", load := 40 } [] rfl
  have h0 : (find_least_loaded_instance saturatedFleet).1 =
      some { instanceId := "i-0001", privateIp := "10.0.1.10", load := 40 } := by decide
  rw [h0] at h1
  have hb := Option.some.inj h1
  rw [h4, ← hb]
  decide

/-- In an ascending scan `range' a n`, every value below the one `find?`
returns fails the predicate. -/
theorem range'_find?_earlier (pred : Nat → Bool) :
    ∀ (n a p : Nat), (List.range' a n).find? pred = some p →
      ∀ q, a ≤ q → q < p → pred q = false := by
  intro n
  induction n with
  | zero => intro a p h q _ _; simp [List.range'] at h
  | succ m ih =>
    intro a p h q haq hqp
    rw [List.range'_succ] at h
    by_cases hpa : pred a = true
    · rw [List.find?_cons_of_pos _ hpa] at h
      have := Option.some.inj h
      omega
    · rw [List.find?_cons_of_neg _ (by simpa using hpa)] at h
      rcases Nat.eq_or_lt_of_le haq with rfl | hlt
      · simpa using hpa
      · exact ih (a + 1) p h q hlt hqp

/-- C9: `_allocate_port` returns the first port of the configured range,
scanned in ascending order, that is not bound on the chosen host; it falls
back to the range's first port when introspection itself fails; and when
every port of the range is in use it returns None, which `provision_target`
reports as PORT_EXHAUSTED. -/
theorem allocate_port_first_free :
    ∀ (used : List Nat) (p : Nat) (s : FleetState) (customerId : String) (env : Ec2Env),
      (allocate_port none = some port_range_start) ∧
      (allocate_port (some used) = some p →
        port_range_start ≤ p ∧ p ≤ port_range_end ∧ used.contains p = false ∧
        ∀ q, port_range_start ≤ q → q < p → used.contains q = true) ∧
      ((∀ q, port_range_start ≤ q → q ≤ port_range_end → used.contains q = true) →
        allocate_port (some used) = none) ∧
      ((find_least_loaded_instance s).1.isSome = true →
       allocate_port env.introspectedPorts = none →
        (provision_target s customerId env).1 = Ec2Outcome.portExhausted) := by
  intro used p s customerId env
  refine ⟨rfl, ?_, ?_, ?_⟩
  · intro h
    simp only [allocate_port] at h
    have hmem : p ∈ portRange := List.mem_of_find?_eq_some h
    have hbounds := List.mem_range'_1.mp hmem
    have hpred := @List.find?_some Nat (fun x => !(used.contains x)) p portRange h
    refine ⟨hbounds.1, by omega, by simpa using hpred, ?_⟩
    intro q hq1 hq2
    have := range'_find?_earlier (fun x => !(used.contains x)) _ _ _ h q hq1 hq2
    simpa using this
  · intro hall
    apply List.find?_eq_none.mpr
    intro x hx
    have hbounds := List.mem_range'_1.mp hx
    have := hall x hbounds.1 (by omega)
    simp only [this, Bool.not_true, Bool.false_eq_true, not_false_eq_true]
  · intro hinst halloc
    rcases hfind : find_least_loaded_instance s with ⟨o, s1⟩
    cases o with
    | none => rw [hfind] at hinst; simp at hinst
    | some inst => simp [provision_target, hfind, halloc]

/-- Witness for C9: with only port 8001 in use, the allocator picks 8002,
inside bounds and free; and the full range in use yields PORT_EXHAUSTED. -/
theorem allocate_port_first_free_witness :
    (port_range_start ≤ 8002 ∧ 8002 ≤ port_range_end ∧ List.contains [8001] 8002 = false) ∧
    (provision_target oneInstanceFleet "demo-1"
        { introspectedPorts := some portRange, dbCreateOk := true,
          containerStartOk := true, nginxOk := true }).1 = Ec2Outcome.portExhausted := by
  have h := allocate_port_first_free [8001] 8002 oneInstanceFleet "demo-1"
    { introspectedPorts := some portRange, dbCreateOk := true,
      containerStartOk := true, nginxOk := true }
  have h2 := h.2.1 (by decide)
  exact ⟨⟨h2.1, h2.2.1, h2.2.2.1⟩, h.2.2.2 (by decide) (by decide)⟩

/-- A list splits into the rows a Boolean predicate keeps and the rows it
rejects. -/
theorem length_filter_partition {α : Type} (pred : α → Bool) (l : List α) :
    (l.filter pred).length + (l.filter fun x => !(pred x)).length = l.length := by
  induction l with
  | nil => rfl
  | cons a t ih =>
    by_cases h : pred a = true
    · simp [List.filter_cons, h]; omega
    · rw [Bool.not_eq_true] at h
      simp [List.filter_cons, h]; omega

/-- C10: `cleanup_expired_jobs` removes exactly the rows whose
`ttl_expires_at` is strictly before now — independently of the job's
status — returns that number of rows, and never touches a row whose
`ttl_expires_at` is NULL. -/
theorem cleanup_expired_jobs_spec :
    ∀ (store : List Job) (now : Nat) (j : Job),
      (jobExpired now j = true ↔ ∃ t, j.ttl_expires_at = some t ∧ t < now) ∧
      (j ∈ (cleanup_expired_jobs store now).1 ↔ j ∈ store ∧ jobExpired now j = false) ∧
      ((cleanup_expired_jobs store now).2 = (store.filter (jobExpired now)).length) ∧
      (j.ttl_expires_at = none → j ∈ store → j ∈ (cleanup_expired_jobs store now).1) := by
  intro store now j
  have hmem : j ∈ (cleanup_expired_jobs store now).1 ↔
      j ∈ store ∧ jobExpired now j = false := by
    unfold cleanup_expired_jobs
    rw [List.mem_filter]
    simp [Bool.not_eq_true']
  refine ⟨?_, hmem, ?_, ?_⟩
  · cases h : j.ttl_expires_at with
    | none => simp [jobExpired, h]
    | some t => simp [jobExpired, h]
  · unfold cleanup_expired_jobs
    have := length_filter_partition (jobExpired now) store
    simp only []
    omega
  · intro hnull hin
    exact hmem.mpr ⟨hin, by simp [jobExpired, hnull]⟩

/-- Witness for C10: in a concrete store the NULL-TTL row survives the
cleanup. -/
theorem cleanup_expired_jobs_spec_witness :
    nullTtlJob ∈ (cleanup_expired_jobs [expiredJob, nullTtlJob] 100).1 := by
  have h := cleanup_expired_jobs_spec [expiredJob, nullTtlJob] 100 nullTtlJob
  exact h.2.2.2 rfl (by decide)
